import Mathlib

/-!
Verification of the date-range and meeting-filter logic of the
Flow.Launcher.Plugin.Outlook repository.

The embedding models the Python sources:
  * `src/plugin/calendar.py`  — CLI tool: `parse_datetime`, `get_date_range`,
    `get_meetings`, `main`;
  * `src/plugin/outlook.py`   — a duplicated (and partly broken) module with
    its own copies of `get_date_range` and `get_meetings`;
  * `src/plugin/handlers/get.py` — the launcher search handler
    `GetOutlookAgenda.callback` and `GetOutlookAgenda._get_date_range`.

Python `datetime` values are modelled at second granularity by the record
`PyDateTime` below; instants are compared on a linear timeline of seconds
since 0001-01-01 00:00:00 (proleptic Gregorian calendar, exactly the
ordinal arithmetic of CPython's `datetime` module).  The microsecond field
of `datetime.now()` is not modelled: every range endpoint the code builds
has its time fields replaced (zeroing microseconds), so no computed value
depends on it, and the past-meeting comparison is modelled at second
granularity.
-/

/-- `True` for Gregorian leap years — the rule used by CPython's
`calendar`/`datetime` modules. -/
def isLeap (y : Nat) : Bool :=
  (y % 4 == 0 && y % 100 != 0) || (y % 400 == 0)

/-- Length of month `m` (1–12) of year `y`; `0` for out-of-range months. -/
def daysInMonth (y m : Nat) : Nat :=
  if m = 2 then (if isLeap y then 29 else 28)
  else if m = 4 ∨ m = 6 ∨ m = 9 ∨ m = 11 then 30
  else if 1 ≤ m ∧ m ≤ 12 then 31
  else 0

/-- Days in year `y` that precede month `m` (so `daysBeforeMonth y 1 = 0`). -/
def daysBeforeMonth (y : Nat) : Nat → Nat
  | 0 => 0
  | m + 1 => daysBeforeMonth y m + daysInMonth y m

/-- Days before January 1 of year `y`, counted from 0001-01-01: the
`_days_before_year` formula of CPython's `datetime` module. -/
def daysBeforeYear (y : Nat) : Nat :=
  365 * (y - 1) + ((y - 1) / 4 - (y - 1) / 100 + (y - 1) / 400)

/-- Proleptic-Gregorian ordinal of a date, as in `datetime.date.toordinal`:
0001-01-01 has ordinal 1. -/
def dateOrdinal (y m d : Nat) : Nat :=
  daysBeforeYear y + daysBeforeMonth y m + d

/-- Seconds at midnight of a given date on the timeline used throughout:
seconds elapsed since 0001-01-01 00:00:00. -/
def dateSec (y m d : Nat) : Nat :=
  (dateOrdinal y m d - 1) * 86400

/-- Model of a Python `datetime` value at second granularity. -/
structure PyDateTime where
  year : Nat
  month : Nat
  day : Nat
  hour : Nat
  minute : Nat
  second : Nat
deriving DecidableEq, Repr

/-- The value a `datetime` can actually hold: field ranges checked by the
`datetime` constructor (years 1–9999, real day-of-month, clock fields). -/
def ValidDT (dt : PyDateTime) : Prop :=
  1 ≤ dt.year ∧ dt.year ≤ 9999 ∧
  1 ≤ dt.month ∧ dt.month ≤ 12 ∧
  1 ≤ dt.day ∧ dt.day ≤ daysInMonth dt.year dt.month ∧
  dt.hour ≤ 23 ∧ dt.minute ≤ 59 ∧ dt.second ≤ 59

instance (dt : PyDateTime) : Decidable (ValidDT dt) := by
  unfold ValidDT; infer_instance

/-- Seconds from midnight to the time-of-day of `dt`. -/
def timeOfDay (dt : PyDateTime) : Nat :=
  dt.hour * 3600 + dt.minute * 60 + dt.second

/-- Position of `dt` on the seconds timeline. -/
def dtSec (dt : PyDateTime) : Nat :=
  dateSec dt.year dt.month dt.day + timeOfDay dt

/-- `dt.replace(hour=0, minute=0, second=0, microsecond=0)` for a value given
by its fields: midnight of the same date. -/
def midnightSec (dt : PyDateTime) : Nat :=
  dateSec dt.year dt.month dt.day

/-- `t.replace(hour=0, minute=0, second=0, microsecond=0)` applied to an
instant of the timeline: truncate to the start of its day. -/
def replaceMidnight (t : Nat) : Nat :=
  t / 86400 * 86400

/-- `datetime.weekday()`: 0 = Monday.  CPython computes it as
`(toordinal + 6) % 7`. -/
def pyWeekday (dt : PyDateTime) : Nat :=
  (dateOrdinal dt.year dt.month dt.day + 6) % 7

/-- Embedding of `get_date_range` from `src/plugin/calendar.py` (lines
25–54; `src/plugin/outlook.py` lines 1–30 contain a textually identical
copy).  `now` stands for the `datetime.now()` call, and the returned pair
are the `start`/`end` datetimes as instants of the seconds timeline.
A `ValueError` is modelled as `Except.error` carrying the message. -/
def get_date_range (now : PyDateTime) (period : String) : Except String (Nat × Nat) :=
  if period = "today" then
    -- start = now.replace(hour=0, ...); end = start + 1 day - 1 second
    let start := midnightSec now
    Except.ok (start, start + 86400 - 1)
  else if period = "tomorrow" then
    -- start = (now + timedelta(days=1)).replace(hour=0, ...)
    let start := replaceMidnight (dtSec now + 86400)
    Except.ok (start, start + 86400 - 1)
  else if period = "week" then
    -- start = (now - timedelta(days=now.weekday())).replace(hour=0, ...)
    let start := replaceMidnight (dtSec now - pyWeekday now * 86400)
    Except.ok (start, start + (6 * 86400 + 23 * 3600 + 59 * 60 + 59))
  else if period = "month" then
    -- start = now.replace(day=1, hour=0, ...);
    -- end = start.replace(year+1, month=1) if December else start.replace(month+1);
    -- end = end - timedelta(seconds=1)
    let start := dateSec now.year now.month 1
    let endMonthFirst :=
      if now.month = 12 then dateSec (now.year + 1) 1 1
      else dateSec now.year (now.month + 1) 1
    Except.ok (start, endMonthFirst - 1)
  else if period = "fromnow" then
    -- start = now.replace(hour=0, ...); end = start + 365 days - 1 second
    let start := midnightSec now
    Except.ok (start, start + 365 * 86400 - 1)
  else
    Except.error ("Unknown period: " ++ period)

/-! ### Arithmetic facts about the calendar embedding -/

theorem daysBeforeMonth_twelve_le (y : Nat) : daysBeforeMonth y 12 ≤ 335 := by
  simp [daysBeforeMonth, daysInMonth]
  cases h : isLeap y <;> simp [h]

theorem daysBeforeMonth_one (y : Nat) : daysBeforeMonth y 1 = 0 := by
  simp [daysBeforeMonth, daysInMonth]

theorem daysInMonth_pos (y m : Nat) (hm1 : 1 ≤ m) (hm2 : m ≤ 12) :
    1 ≤ daysInMonth y m := by
  unfold daysInMonth
  split
  · split <;> omega
  · split
    · omega
    · split <;> omega

/-- Crossing from December 1 to January 1 of the next year moves the
ordinal forward. -/
theorem dateOrdinal_dec_lt (y : Nat) (hy : 1 ≤ y) :
    dateOrdinal y 12 1 < dateOrdinal (y + 1) 1 1 := by
  have h12 := daysBeforeMonth_twelve_le y
  have h1 := daysBeforeMonth_one (y + 1)
  unfold dateOrdinal daysBeforeYear
  rw [h1]
  omega

/-- Within a year, the first of month `m + 1` is after the first of
month `m`. -/
theorem dateOrdinal_succ_month_lt (y m : Nat) (hm1 : 1 ≤ m) (hm2 : m ≤ 11) :
    dateOrdinal y m 1 < dateOrdinal y (m + 1) 1 := by
  have hpos := daysInMonth_pos y m hm1 (by omega)
  unfold dateOrdinal
  simp [daysBeforeMonth]
  omega

theorem dateSec_dec_lt (y : Nat) (hy : 1 ≤ y) :
    dateSec y 12 1 < dateSec (y + 1) 1 1 := by
  have h := dateOrdinal_dec_lt y hy
  have h1 : 1 ≤ dateOrdinal y 12 1 := by unfold dateOrdinal; omega
  unfold dateSec
  omega

theorem dateSec_succ_month_lt (y m : Nat) (hm1 : 1 ≤ m) (hm2 : m ≤ 11) :
    dateSec y m 1 < dateSec y (m + 1) 1 := by
  have h := dateOrdinal_succ_month_lt y m hm1 hm2
  have h1 : 1 ≤ dateOrdinal y m 1 := by unfold dateOrdinal; omega
  unfold dateSec
  omega

/-- Shared helper: on every recognized period `get_date_range` succeeds and
the returned range is ordered. -/
theorem get_date_range_ok_le (now : PyDateTime) (p : String)
    (hv : ValidDT now)
    (hp : p = "today" ∨ p = "tomorrow" ∨ p = "week" ∨ p = "month" ∨ p = "fromnow") :
    ∃ s e, get_date_range now p = Except.ok (s, e) ∧ s ≤ e := by
  obtain ⟨hy1, hy2, hm1, hm2, hrest⟩ := hv
  rcases hp with h | h | h | h | h <;> subst h
  · exact ⟨_, _, rfl, by omega⟩
  · exact ⟨_, _, rfl, by omega⟩
  · exact ⟨_, _, rfl, by omega⟩
  · refine ⟨_, _, rfl, ?_⟩
    by_cases h12 : now.month = 12
    · rw [if_pos h12]
      have := dateSec_dec_lt now.year hy1
      rw [h12]
      omega
    · rw [if_neg h12]
      have := dateSec_succ_month_lt now.year now.month hm1 (by omega)
      omega
  · exact ⟨_, _, rfl, by omega⟩

/-! ### Claims about `get_date_range` -/

/-- Claim C8: for every recognized period token and every current local
time, the range returned by `get_date_range` satisfies `start ≤ end`. -/
theorem get_date_range_start_le_end (now : PyDateTime) (p : String)
    (hv : ValidDT now)
    (hp : p = "today" ∨ p = "tomorrow" ∨ p = "week" ∨ p = "month" ∨ p = "fromnow") :
    ∃ s e, get_date_range now p = Except.ok (s, e) ∧ s ≤ e :=
  get_date_range_ok_le now p hv hp

theorem get_date_range_start_le_end_witness :
    ∃ s e, get_date_range ⟨2024, 12, 15, 10, 30, 0⟩ "month" = Except.ok (s, e) ∧ s ≤ e :=
  get_date_range_start_le_end ⟨2024, 12, 15, 10, 30, 0⟩ "month" (by decide)
    (by decide)

/-- Claim C5: for every period token outside
{today, tomorrow, week, month, fromnow}, `get_date_range` raises
`ValueError("Unknown period: ...")` instead of returning a range. -/
theorem get_date_range_unknown_period (now : PyDateTime) (p : String)
    (h : ¬ (p = "today" ∨ p = "tomorrow" ∨ p = "week" ∨ p = "month" ∨ p = "fromnow")) :
    get_date_range now p = Except.error ("Unknown period: " ++ p) := by
  push_neg at h
  obtain ⟨h1, h2, h3, h4, h5⟩ := h
  simp [get_date_range, h1, h2, h3, h4, h5]

theorem get_date_range_unknown_period_witness :
    get_date_range ⟨2024, 12, 15, 10, 30, 0⟩ "yesterday" =
      Except.error ("Unknown period: " ++ "yesterday") :=
  get_date_range_unknown_period ⟨2024, 12, 15, 10, 30, 0⟩ "yesterday" (by decide)

/-- Claim C1 counterexample: at the concrete December instant
2024-12-15 10:30:00 the "month" range ends one second BEFORE the first
instant of January 2025, so the end instant does not fall in January of
the following year. -/
theorem december_month_end_not_in_january_cex :
    get_date_range ⟨2024, 12, 15, 10, 30, 0⟩ "month" =
      Except.ok (dateSec 2024 12 1, dateSec 2025 1 1 - 1) ∧
    ¬ (dateSec 2025 1 1 ≤ dateSec 2025 1 1 - 1 ∧
       dateSec 2025 1 1 - 1 < dateSec 2025 2 1) :=
  ⟨rfl, by decide⟩

/-- Claim C1 (amended): in December the "month" range ends exactly one
second before the first instant of January of the following year; the end
instant therefore falls in December of the current year (its last
second), not in January. -/
theorem december_month_end_last_second_of_year (now : PyDateTime)
    (hv : ValidDT now) (h12 : now.month = 12) :
    ∃ s e, get_date_range now "month" = Except.ok (s, e) ∧
      e + 1 = dateSec (now.year + 1) 1 1 ∧
      dateSec now.year 12 1 ≤ e ∧ e < dateSec (now.year + 1) 1 1 := by
  obtain ⟨hy1, hrest⟩ := hv
  have hlt := dateSec_dec_lt now.year hy1
  have heq : get_date_range now "month" =
      Except.ok (dateSec now.year 12 1, dateSec (now.year + 1) 1 1 - 1) := by
    simp [get_date_range, h12]
  exact ⟨_, _, heq, by omega, by omega, by omega⟩

theorem december_month_end_last_second_of_year_witness :
    ∃ s e, get_date_range ⟨2024, 12, 15, 10, 30, 0⟩ "month" = Except.ok (s, e) ∧
      e + 1 = dateSec (2024 + 1) 1 1 ∧
      dateSec 2024 12 1 ≤ e ∧ e < dateSec (2024 + 1) 1 1 :=
  december_month_end_last_second_of_year ⟨2024, 12, 15, 10, 30, 0⟩ (by decide) rfl

/-! ### `parse_datetime` (src/plugin/calendar.py lines 16–22)

`datetime.strptime` with the two fixed formats `"%Y-%m-%d %H:%M"` and
`"%Y-%m-%d"` is modelled character-exactly: CPython compiles `%Y` to four
digits, `%m`/`%d`/`%H`/`%M` to one or two digits with the value ranges
below, literal characters match themselves, the whole string must be
consumed, and the `datetime` constructor then checks the day against the
month length. -/

/-- The ASCII digit for `n % 10`-style use; values `9` and above give '9'
(callers only pass `0`–`9`). -/
def digitChar : Nat → Char
  | 0 => '0'
  | 1 => '1'
  | 2 => '2'
  | 3 => '3'
  | 4 => '4'
  | 5 => '5'
  | 6 => '6'
  | 7 => '7'
  | 8 => '8'
  | _ => '9'

/-- Numeric value of an ASCII digit character. -/
def digitVal (c : Char) : Nat := c.toNat - 48

/-- Two-digit zero-padded rendering (for values below 100). -/
def toDigits2 (n : Nat) : List Char := [digitChar (n / 10), digitChar (n % 10)]

/-- Four-digit zero-padded rendering (for values below 10000). -/
def toDigits4 (n : Nat) : List Char :=
  [digitChar (n / 1000), digitChar (n / 100 % 10), digitChar (n / 10 % 10),
   digitChar (n % 10)]

/-- Value of a digit string read left to right. -/
def parseNumber (cs : List Char) : Nat :=
  cs.foldl (fun a c => a * 10 + digitVal c) 0

/-- Split a character list at every occurrence of `sep` (like Python's
`str.split` with an explicit separator). -/
def splitOnChar (sep : Char) : List Char → List (List Char)
  | [] => [[]]
  | c :: cs =>
    if c = sep then [] :: splitOnChar sep cs
    else
      match splitOnChar sep cs with
      | [] => [[c]]
      | t :: ts => (c :: t) :: ts

/-- One numeric field of a `strptime` pattern: `minLen`–`maxLen` digits
whose value lies in `lo`–`hi`. -/
def parseField (cs : List Char) (minLen maxLen lo hi : Nat) : Option Nat :=
  if minLen ≤ cs.length ∧ cs.length ≤ maxLen ∧ cs.all Char.isDigit = true then
    let v := parseNumber cs
    if lo ≤ v ∧ v ≤ hi then some v else none
  else none

/-- The `"%Y-%m-%d"` part: year-month-day with the `datetime` constructor's
day-of-month check. -/
def parseDatePart (cs : List Char) : Option (Nat × Nat × Nat) :=
  match splitOnChar '-' cs with
  | [ys, ms, ds] =>
    match parseField ys 4 4 1 9999, parseField ms 1 2 1 12, parseField ds 1 2 1 31 with
    | some y, some m, some d =>
      if d ≤ daysInMonth y m then some (y, m, d) else none
    | _, _, _ => none
  | _ => none

/-- The `"%H:%M"` part. -/
def parseTimePart (cs : List Char) : Option (Nat × Nat) :=
  match splitOnChar ':' cs with
  | [hs, ms] =>
    match parseField hs 1 2 0 23, parseField ms 1 2 0 59 with
    | some h, some mi => some (h, mi)
    | _, _ => none
  | _ => none

/-- `datetime.strptime(s, "%Y-%m-%d %H:%M")`; unspecified fields (seconds)
default to zero. -/
def strptimeFull (cs : List Char) : Option PyDateTime :=
  match splitOnChar ' ' cs with
  | [dcs, tcs] =>
    match parseDatePart dcs, parseTimePart tcs with
    | some (y, m, d), some (h, mi) => some ⟨y, m, d, h, mi, 0⟩
    | _, _ => none
  | _ => none

/-- Embedding of `parse_datetime` from `src/plugin/calendar.py`: try the
full format, fall back to the date-only format and `replace` the hour and
minute with the supplied defaults; a second `ValueError` propagates (the
caller prints "Invalid date format"). -/
def parse_datetime (dt_str : String) (default_hour default_minute : Nat) :
    Except String PyDateTime :=
  match strptimeFull dt_str.data with
  | some dt => Except.ok dt
  | none =>
    match parseDatePart dt_str.data with
    | some (y, m, d) => Except.ok ⟨y, m, d, default_hour, default_minute, 0⟩
    | none => Except.error "Invalid date format"

/-- Character rendering of a date in `YYYY-MM-DD` form. -/
def dateChars (y m d : Nat) : List Char :=
  toDigits4 y ++ ('-' :: (toDigits2 m ++ ('-' :: toDigits2 d)))

/-- Character rendering of a time in `HH:MM` form. -/
def timeChars (h mi : Nat) : List Char :=
  toDigits2 h ++ (':' :: toDigits2 mi)

/-- A date in canonical `YYYY-MM-DD` form. -/
def fmtDate (y m d : Nat) : String := String.mk (dateChars y m d)

/-- A datetime in canonical `YYYY-MM-DD HH:MM` form. -/
def fmtFull (y m d h mi : Nat) : String :=
  String.mk (dateChars y m d ++ (' ' :: timeChars h mi))

/-! ### Parsing lemmas: the canonical renderings round-trip -/

theorem digitChar_isDigit (k : Nat) : (digitChar k).isDigit = true := by
  unfold digitChar
  split <;> decide

theorem digitVal_digitChar (k : Nat) (hk : k < 10) : digitVal (digitChar k) = k := by
  unfold digitChar
  split <;> simp_all [digitVal]
  omega

theorem toDigits2_all (n : Nat) : (toDigits2 n).all Char.isDigit = true := by
  simp [toDigits2, digitChar_isDigit]

theorem toDigits4_all (n : Nat) : (toDigits4 n).all Char.isDigit = true := by
  simp [toDigits4, digitChar_isDigit]

theorem parseNumber_toDigits2 (n : Nat) (h : n < 100) :
    parseNumber (toDigits2 n) = n := by
  have h1 : n / 10 < 10 := by omega
  have h2 : n % 10 < 10 := by omega
  simp [parseNumber, toDigits2, digitVal_digitChar _ h1, digitVal_digitChar _ h2]
  omega

theorem parseNumber_toDigits4 (n : Nat) (h : n < 10000) :
    parseNumber (toDigits4 n) = n := by
  have h1 : n / 1000 < 10 := by omega
  have h2 : n / 100 % 10 < 10 := by omega
  have h3 : n / 10 % 10 < 10 := by omega
  have h4 : n % 10 < 10 := by omega
  simp [parseNumber, toDigits4, digitVal_digitChar _ h1, digitVal_digitChar _ h2,
    digitVal_digitChar _ h3, digitVal_digitChar _ h4]
  omega

theorem not_mem_sep (sep : Char) (cs : List Char)
    (h : cs.all Char.isDigit = true) (hsep : sep.isDigit = false) : sep ∉ cs := by
  intro hmem
  have := List.all_eq_true.mp h sep hmem
  simp [hsep] at this

theorem splitOnChar_not_mem (sep : Char) (cs : List Char) (h : sep ∉ cs) :
    splitOnChar sep cs = [cs] := by
  induction cs with
  | nil => rfl
  | cons c cs ih =>
    have hc : ¬ c = sep := fun e => h (e ▸ List.mem_cons_self c cs)
    have h2 : sep ∉ cs := fun hm => h (List.mem_cons_of_mem _ hm)
    simp [splitOnChar, hc, ih h2]

theorem splitOnChar_append (sep : Char) (xs ys : List Char) (h : sep ∉ xs) :
    splitOnChar sep (xs ++ sep :: ys) = xs :: splitOnChar sep ys := by
  induction xs with
  | nil => simp [splitOnChar]
  | cons c xs ih =>
    have hc : ¬ c = sep := fun e => h (e ▸ List.mem_cons_self c xs)
    have h2 : sep ∉ xs := fun hm => h (List.mem_cons_of_mem _ hm)
    simp [splitOnChar, hc, ih h2]

theorem parseField_toDigits2 (n minLen lo hi : Nat) (h : n < 100)
    (hmin : minLen ≤ 2) (h1 : lo ≤ n) (h2 : n ≤ hi) :
    parseField (toDigits2 n) minLen 2 lo hi = some n := by
  have hall := toDigits2_all n
  have hnum := parseNumber_toDigits2 n h
  have hlen : (toDigits2 n).length = 2 := rfl
  unfold parseField
  rw [hlen, hnum]
  rw [if_pos ⟨hmin, le_refl 2, hall⟩, if_pos ⟨h1, h2⟩]

theorem parseField_toDigits4 (n lo hi : Nat) (h : n < 10000)
    (h1 : lo ≤ n) (h2 : n ≤ hi) :
    parseField (toDigits4 n) 4 4 lo hi = some n := by
  have hall := toDigits4_all n
  have hnum := parseNumber_toDigits4 n h
  have hlen : (toDigits4 n).length = 4 := rfl
  unfold parseField
  rw [hlen, hnum]
  rw [if_pos ⟨le_refl 4, le_refl 4, hall⟩, if_pos ⟨h1, h2⟩]

theorem daysInMonth_le (y m : Nat) : daysInMonth y m ≤ 31 := by
  unfold daysInMonth
  split
  · split <;> omega
  · split
    · omega
    · split <;> omega

theorem parseDatePart_dateChars (y m d : Nat) (hy1 : 1 ≤ y) (hy2 : y ≤ 9999)
    (hm1 : 1 ≤ m) (hm2 : m ≤ 12) (hd1 : 1 ≤ d) (hd2 : d ≤ daysInMonth y m) :
    parseDatePart (dateChars y m d) = some (y, m, d) := by
  have hd31 : d ≤ 31 := le_trans hd2 (daysInMonth_le y m)
  have hsplit : splitOnChar '-' (dateChars y m d) =
      [toDigits4 y, toDigits2 m, toDigits2 d] := by
    unfold dateChars
    rw [splitOnChar_append '-' _ _ (not_mem_sep '-' _ (toDigits4_all y) (by decide)),
      splitOnChar_append '-' _ _ (not_mem_sep '-' _ (toDigits2_all m) (by decide)),
      splitOnChar_not_mem '-' _ (not_mem_sep '-' _ (toDigits2_all d) (by decide))]
  simp only [parseDatePart, hsplit,
    parseField_toDigits4 y 1 9999 (by omega) hy1 hy2,
    parseField_toDigits2 m 1 1 12 (by omega) (by omega) hm1 hm2,
    parseField_toDigits2 d 1 1 31 (by omega) (by omega) hd1 hd31]
  rw [if_pos hd2]

theorem parseTimePart_timeChars (h mi : Nat) (hh : h ≤ 23) (hmi : mi ≤ 59) :
    parseTimePart (timeChars h mi) = some (h, mi) := by
  have hsplit : splitOnChar ':' (timeChars h mi) = [toDigits2 h, toDigits2 mi] := by
    unfold timeChars
    rw [splitOnChar_append ':' _ _ (not_mem_sep ':' _ (toDigits2_all h) (by decide)),
      splitOnChar_not_mem ':' _ (not_mem_sep ':' _ (toDigits2_all mi) (by decide))]
  simp only [parseTimePart, hsplit,
    parseField_toDigits2 h 1 0 23 (by omega) (by omega) (by omega) hh,
    parseField_toDigits2 mi 1 0 59 (by omega) (by omega) (by omega) hmi]

theorem space_not_mem_dateChars (y m d : Nat) : ' ' ∉ dateChars y m d := by
  intro hmem
  simp only [dateChars] at hmem
  rcases List.mem_append.mp hmem with h | h
  · exact not_mem_sep ' ' _ (toDigits4_all y) (by decide) h
  · rcases List.mem_cons.mp h with h | h
    · exact absurd h (by decide)
    · rcases List.mem_append.mp h with h | h
      · exact not_mem_sep ' ' _ (toDigits2_all m) (by decide) h
      · rcases List.mem_cons.mp h with h | h
        · exact absurd h (by decide)
        · exact not_mem_sep ' ' _ (toDigits2_all d) (by decide) h

theorem space_not_mem_timeChars (h mi : Nat) : ' ' ∉ timeChars h mi := by
  intro hmem
  simp only [timeChars] at hmem
  rcases List.mem_append.mp hmem with hx | hx
  · exact not_mem_sep ' ' _ (toDigits2_all h) (by decide) hx
  · rcases List.mem_cons.mp hx with hx | hx
    · exact absurd hx (by decide)
    · exact not_mem_sep ' ' _ (toDigits2_all mi) (by decide) hx

theorem strptimeFull_chars (y m d h mi : Nat) (hy1 : 1 ≤ y) (hy2 : y ≤ 9999)
    (hm1 : 1 ≤ m) (hm2 : m ≤ 12) (hd1 : 1 ≤ d) (hd2 : d ≤ daysInMonth y m)
    (hh : h ≤ 23) (hmi : mi ≤ 59) :
    strptimeFull (dateChars y m d ++ (' ' :: timeChars h mi)) =
      some ⟨y, m, d, h, mi, 0⟩ := by
  simp only [strptimeFull,
    splitOnChar_append ' ' _ _ (space_not_mem_dateChars y m d),
    splitOnChar_not_mem ' ' _ (space_not_mem_timeChars h mi),
    parseDatePart_dateChars y m d hy1 hy2 hm1 hm2 hd1 hd2,
    parseTimePart_timeChars h mi hh hmi]

theorem strptimeFull_dateOnly_none (y m d : Nat) :
    strptimeFull (dateChars y m d) = none := by
  simp only [strptimeFull,
    splitOnChar_not_mem ' ' _ (space_not_mem_dateChars y m d)]

/-- Claim C6: a canonical `YYYY-MM-DD HH:MM` string parses to exactly that
instant (for any default pair), and a date-only `YYYY-MM-DD` string picks
up the supplied defaults: 00:00 when parsed as the start and 23:59 when
parsed as the end (the defaults `main` passes). -/
theorem parse_datetime_formats (y m d h mi dh dm : Nat)
    (hy1 : 1 ≤ y) (hy2 : y ≤ 9999) (hm1 : 1 ≤ m) (hm2 : m ≤ 12)
    (hd1 : 1 ≤ d) (hd2 : d ≤ daysInMonth y m) (hh : h ≤ 23) (hmi : mi ≤ 59) :
    parse_datetime (fmtFull y m d h mi) dh dm = Except.ok ⟨y, m, d, h, mi, 0⟩ ∧
    parse_datetime (fmtDate y m d) 0 0 = Except.ok ⟨y, m, d, 0, 0, 0⟩ ∧
    parse_datetime (fmtDate y m d) 23 59 = Except.ok ⟨y, m, d, 23, 59, 0⟩ := by
  have hfull : (fmtFull y m d h mi).data =
      dateChars y m d ++ (' ' :: timeChars h mi) := rfl
  have hdate : (fmtDate y m d).data = dateChars y m d := rfl
  refine ⟨?_, ?_, ?_⟩
  · simp only [parse_datetime, hfull,
      strptimeFull_chars y m d h mi hy1 hy2 hm1 hm2 hd1 hd2 hh hmi]
  · simp only [parse_datetime, hdate, strptimeFull_dateOnly_none,
      parseDatePart_dateChars y m d hy1 hy2 hm1 hm2 hd1 hd2]
  · simp only [parse_datetime, hdate, strptimeFull_dateOnly_none,
      parseDatePart_dateChars y m d hy1 hy2 hm1 hm2 hd1 hd2]

theorem parse_datetime_formats_witness :
    fmtDate 2024 1 1 = "2024-01-01" ∧
    fmtFull 2024 1 2 18 0 = "2024-01-02 18:00" ∧
    parse_datetime (fmtDate 2024 1 1) 0 0 = Except.ok ⟨2024, 1, 1, 0, 0, 0⟩ ∧
    parse_datetime (fmtFull 2024 1 2 18 0) 23 59 = Except.ok ⟨2024, 1, 2, 18, 0, 0⟩ :=
  ⟨rfl, rfl,
    (parse_datetime_formats 2024 1 1 0 0 0 0 (by decide) (by decide) (by decide)
      (by decide) (by decide) (by decide) (by decide) (by decide)).2.1,
    (parse_datetime_formats 2024 1 2 18 0 23 59 (by decide) (by decide) (by decide)
      (by decide) (by decide) (by decide) (by decide) (by decide)).1⟩

/-! ### Meeting records and the filter logic of `get_meetings`
(src/plugin/calendar.py lines 57–122 and src/plugin/outlook.py lines 41–97) -/

/-- A calendar appointment as exposed by the provider: the fields the code
reads (`appointment.Subject`, `.Start`, ...).  `Start`/`End` are instants
of the seconds timeline; `RequiredAttendees` may be `None`. -/
structure Appointment where
  Subject : String
  Start : Nat
  End : Nat
  Organizer : String
  RequiredAttendees : Option String
  Location : String
  Body : String
  IsRecurring : Bool
deriving DecidableEq, Repr

/-- Python truthiness of an optional string (`if subject_filter:`):
`None` and `""` are falsy. -/
def truthyStr : Option String → Bool
  | none => false
  | some s => !(s == "")

/-- `s.lower()` as a character list.  Python's `str.lower` restricted to
the character-wise ASCII case mapping of `Char.toLower`. -/
def lowerChars (s : String) : List Char := s.data.map Char.toLower

def isPrefixChars : List Char → List Char → Bool
  | [], _ => true
  | _ :: _, [] => false
  | c :: cs, d :: ds => c == d && isPrefixChars cs ds

/-- Substring containment on character lists (Python's `needle in hay`). -/
def isSubChars (needle : List Char) : List Char → Bool
  | [] => needle.isEmpty
  | d :: ds => isPrefixChars needle (d :: ds) || isSubChars needle ds

/-- `sub.lower() in field.lower()`. -/
def containsCI (sub field : String) : Bool :=
  isSubChars (lowerChars sub) (lowerChars field)

/-- The body of the appointment loop of `get_meetings`: the record survives
the three `continue` checks, applied in order subject → organizer →
attendee; a missing attendee field is replaced by `""`
(`appointment.RequiredAttendees or ""`). -/
def passes (subject_filter organizer_filter attendee_filter : Option String)
    (a : Appointment) : Bool :=
  if truthyStr subject_filter &&
      !containsCI (subject_filter.getD "") a.Subject then false
  else if truthyStr organizer_filter &&
      !containsCI (organizer_filter.getD "") a.Organizer then false
  else if truthyStr attendee_filter &&
      !containsCI (attendee_filter.getD "") (a.RequiredAttendees.getD "") then false
  else true

/-- Embedding of `get_meetings` from `src/plugin/calendar.py` (lines
57–122).  `appointments` stands for the provider collection after the
`Restrict` range query and the `Sort("[Start]")` call, which run inside
the external COM object; every surviving record is appended, and the full
list is returned after the loop. -/
def get_meetings (appointments : List Appointment)
    (subject_filter organizer_filter attendee_filter : Option String) :
    List Appointment :=
  appointments.filter (passes subject_filter organizer_filter attendee_filter)

/-- The appointment loop of `get_meetings` in `src/plugin/outlook.py`
(lines 62–97): `return meetings` sits INSIDE the `for` body, directly
after the first `meetings.append(...)`, so the function returns as soon
as one record passes the filters; if no record ever passes, the loop
finishes and the function falls off the end, returning `None`. -/
def outlook_scan (keep : Appointment → Bool) :
    List Appointment → List Appointment → Option (List Appointment)
  | [], _ => none
  | a :: rest, meetings =>
    if keep a then some (meetings ++ [a]) else outlook_scan keep rest meetings

/-- Embedding of `get_meetings` from `src/plugin/outlook.py` (lines
41–97), whose loop is `outlook_scan` above.  `none` models the implicit
Python `None` result. -/
def outlook_get_meetings (appointments : List Appointment)
    (subject_filter organizer_filter attendee_filter : Option String) :
    Option (List Appointment) :=
  outlook_scan (passes subject_filter organizer_filter attendee_filter)
    appointments []

/-- Membership in the calendar.py filter result. -/
theorem mem_get_meetings (a : Appointment) (appointments : List Appointment)
    (sf og af : Option String) :
    a ∈ get_meetings appointments sf og af ↔
      a ∈ appointments ∧ passes sf og af a = true := by
  simp [get_meetings, List.mem_filter]

/-- With no filters supplied, calendar.py's `get_meetings` keeps every
in-range record. -/
theorem get_meetings_no_filters (appointments : List Appointment) :
    get_meetings appointments none none none = appointments := by
  have h : passes none none none = fun _ => true := by
    funext a; simp [passes, truthyStr]
  simp [get_meetings, h]

/-! ### `main` (src/plugin/calendar.py lines 125–228) -/

/-- The `argparse` result of `main`: `--period` is `None` or one of the
four choices, `--custom` is `None` or the two date strings, the three
filters are `None` or the given strings, `--past` is a flag. -/
structure Args where
  period : Option String
  custom : Option (String × String)
  subject : Option String
  organizer : Option String
  attendee : Option String
  past : Bool
deriving DecidableEq, Repr

/-- The date-resolution prefix of `main` (lines 168–178): named period via
`get_date_range`, else custom strings via `parse_datetime` (start defaults
00:00, end defaults 23:59; a `ValueError` prints "Invalid date format" and
returns), else `args.period = "fromnow"` and `get_date_range` again.  The
returned `Option String` is the value of `args.period` after this step
(it was mutated on the default path), which the past-filter later tests. -/
def resolveRange (args : Args) (now : PyDateTime) :
    Except String (Option String × Nat × Nat) :=
  if truthyStr args.period then
    match get_date_range now (args.period.getD "") with
    | Except.ok (s, e) => Except.ok (args.period, s, e)
    | Except.error msg => Except.error msg
  else
    match args.custom with
    | some (cs, ce) =>
      match parse_datetime cs 0 0, parse_datetime ce 23 59 with
      | Except.ok ds, Except.ok de => Except.ok (none, dtSec ds, dtSec de)
      | _, _ => Except.error "Invalid date format"
    | none =>
      match get_date_range now "fromnow" with
      | Except.ok (s, e) => Except.ok (some "fromnow", s, e)
      | Except.error msg => Except.error msg

/-- Embedding of `main` from `src/plugin/calendar.py` up to the final
printing (named `calendar_main` because `main` is a reserved program
entry point in Lean): resolve the range, reject `start_date > end_date`, query
`get_meetings`, and drop past meetings (`m['end'] >= now`) unless
`--past` is set — a step guarded by `if args.period:`.  `provider` stands
for the records the Outlook COM query returns for the restricted range;
`Except.error` collects the messages `main` prints before returning
early.  Both `datetime.now()` calls are modelled by the same instant
`now`. -/
def calendar_main (args : Args) (now : PyDateTime) (provider : List Appointment) :
    Except String (List Appointment) :=
  match resolveRange args now with
  | Except.error msg => Except.error msg
  | Except.ok (effPeriod, s, e) =>
    if e < s then Except.error "Error: Start date must be before end date"
    else
      let meetings := get_meetings provider args.subject args.organizer args.attendee
      let meetings :=
        if !args.past && truthyStr effPeriod then
          meetings.filter (fun m => decide (dtSec now ≤ m.End))
        else meetings
      Except.ok meetings

/-! ### Claims about `get_meetings` and `main` -/

def apptA : Appointment :=
  ⟨"Standup", 100, 200, "Alice", some "Bob, Carol", "Room 1", "", false⟩

def apptB : Appointment :=
  ⟨"Review", 300, 400, "Dan", some "Erin", "Room 2", "", false⟩

/-- Claim C2 (code-bug evidence): with no filters supplied — so every
record trivially satisfies the filter set — calendar.py's `get_meetings`
returns both of two in-range records, but outlook.py's `get_meetings`
returns right after appending the FIRST matching record and so yields a
one-element list instead of the list of all matching records. -/
theorem outlook_get_meetings_first_match_only :
    get_meetings [apptA, apptB] none none none = [apptA, apptB] ∧
    outlook_get_meetings [apptA, apptB] none none none = some [apptA] :=
  ⟨rfl, rfl⟩

/-- Claim C3 (code-bug evidence): when zero records match — either because
the provider returned nothing or because a filter rejects everything —
calendar.py's `get_meetings` returns the empty list, but outlook.py's
`get_meetings` falls off the end of the loop and returns `None`. -/
theorem outlook_get_meetings_none_on_no_match :
    get_meetings [] none none none = [] ∧
    outlook_get_meetings [] none none none = none ∧
    get_meetings [apptA] (some "zzz") none none = [] ∧
    outlook_get_meetings [apptA] (some "zzz") none none = none :=
  ⟨rfl, rfl, rfl, rfl⟩

/-- Claim C10: passing the empty string as the subject, organizer, or
attendee filter is equivalent to passing None for that filter — the
truthiness checks skip the test entirely — and with all filters empty
every record is kept; the same truthiness logic governs outlook.py's
copy. -/
theorem empty_filter_equiv_none (appointments : List Appointment)
    (sf og af : Option String) :
    get_meetings appointments (some "") og af = get_meetings appointments none og af ∧
    get_meetings appointments sf (some "") af = get_meetings appointments sf none af ∧
    get_meetings appointments sf og (some "") = get_meetings appointments sf og none ∧
    get_meetings appointments (some "") (some "") (some "") = appointments ∧
    outlook_get_meetings appointments (some "") (some "") (some "") =
      outlook_get_meetings appointments none none none := by
  have h1 : passes (some "") og af = passes none og af := by
    funext a; simp [passes, truthyStr]
  have h2 : passes sf (some "") af = passes sf none af := by
    funext a; simp [passes, truthyStr]
  have h3 : passes sf og (some "") = passes sf og none := by
    funext a; simp [passes, truthyStr]
  have h4 : passes (some "") (some "") (some "") = passes none none none := by
    funext a; simp [passes, truthyStr]
  refine ⟨?_, ?_, ?_, ?_, ?_⟩
  · simp [get_meetings, h1]
  · simp [get_meetings, h2]
  · simp [get_meetings, h3]
  · rw [get_meetings, h4]
    have := get_meetings_no_filters appointments
    rw [get_meetings] at this
    exact this
  · simp [outlook_get_meetings, h4]

/-- Claim C7: when the resolved range has start strictly greater than end,
`main` reports the start/end error, and it does so for EVERY possible
provider result — the outcome does not depend on the provider, which is
exactly the pure-model statement that no provider query is performed and
no partial work survives. -/
theorem main_start_after_end_no_provider (args : Args) (now : PyDateTime)
    (eff : Option String) (s e : Nat)
    (hres : resolveRange args now = Except.ok (eff, s, e)) (hlt : e < s) :
    ∀ provider : List Appointment,
      calendar_main args now provider =
        Except.error "Error: Start date must be before end date" := by
  intro provider
  simp only [calendar_main, hres]
  rw [if_pos hlt]

def c7Args : Args := ⟨none, some ("2024-01-02", "2024-01-01"), none, none, none, false⟩

theorem main_start_after_end_no_provider_witness :
    calendar_main c7Args ⟨2024, 6, 1, 12, 0, 0⟩ [] =
      Except.error "Error: Start date must be before end date" :=
  main_start_after_end_no_provider c7Args ⟨2024, 6, 1, 12, 0, 0⟩ none
    (dtSec ⟨2024, 1, 2, 0, 0, 0⟩) (dtSec ⟨2024, 1, 1, 23, 59, 0⟩) rfl (by decide) []

/-- Claim C4 (amended): when the range came from a named period (including
the implicit "fromnow" default), `main` drops every record whose end time
is earlier than the current local time unless `--past` is set, and keeps
everything when `--past` is set; the drop step is guarded by
`if args.period:`, so it does not run for custom ranges. -/
theorem period_past_filter (args : Args) (now : PyDateTime)
    (provider : List Appointment) (p : String)
    (hper : args.period = some p)
    (hp : p = "today" ∨ p = "tomorrow" ∨ p = "week" ∨ p = "month" ∨ p = "fromnow")
    (hv : ValidDT now) :
    calendar_main args now provider =
      Except.ok (if args.past then
          get_meetings provider args.subject args.organizer args.attendee
        else
          (get_meetings provider args.subject args.organizer args.attendee).filter
            (fun m => decide (dtSec now ≤ m.End))) := by
  obtain ⟨s, e, hok, hle⟩ := get_date_range_ok_le now p hv hp
  have hne : ¬ p = "" := by
    rcases hp with h | h | h | h | h <;> subst h <;> decide
  have htr2 : truthyStr (some p) = true := by
    simp [truthyStr]
    exact hne
  have hres : resolveRange args now = Except.ok (some p, s, e) := by
    simp only [resolveRange, hper, htr2, if_true, Option.getD_some, hok]
  simp only [calendar_main, hres]
  rw [if_neg (by omega)]
  cases hpast : args.past <;> simp [hpast, htr2]

def c4wArgs : Args := ⟨some "today", none, none, none, none, false⟩

def apptC : Appointment :=
  ⟨"Retro", 100, 200, "Ann", none, "", "", false⟩

theorem period_past_filter_witness :
    calendar_main c4wArgs ⟨2024, 6, 1, 12, 0, 0⟩ [apptC] =
      Except.ok (if c4wArgs.past then
          get_meetings [apptC] c4wArgs.subject c4wArgs.organizer c4wArgs.attendee
        else
          (get_meetings [apptC] c4wArgs.subject c4wArgs.organizer c4wArgs.attendee).filter
            (fun m => decide (dtSec ⟨2024, 6, 1, 12, 0, 0⟩ ≤ m.End))) :=
  period_past_filter c4wArgs ⟨2024, 6, 1, 12, 0, 0⟩ [apptC] "today" rfl
    (Or.inl rfl) (by decide)

def c4Args : Args := ⟨none, some ("2024-06-01", "2024-06-02"), none, none, none, false⟩

def c4Now : PyDateTime := ⟨2024, 6, 1, 12, 0, 0⟩

/-- A meeting on 2024-06-01 from 11:00 to 11:59, one minute before the
current time `c4Now` (12:00 the same day). -/
def pastMeeting : Appointment :=
  ⟨"Retro", dateSec 2024 6 1 + 39600, dateSec 2024 6 1 + 43140, "Ann", none, "", "", false⟩

/-- Claim C4 counterexample: a query whose range came from a custom
start/end pair, run WITHOUT the include-past flag, still returns a record
that ended one minute before the current local time — the past-filter is
skipped on the custom path because of the `if args.period:` guard. -/
theorem custom_range_keeps_past_meeting_cex :
    c4Args.past = false ∧
    pastMeeting.End < dtSec c4Now ∧
    calendar_main c4Args c4Now [pastMeeting] = Except.ok [pastMeeting] :=
  ⟨rfl, by decide, rfl⟩

/-! ### The launcher search handler (src/plugin/handlers/get.py)

`GetOutlookAgenda._get_date_range` differs from the calendar.py function:
it lowercases the period, supports only four periods, and has NO else
branch — an unknown period leaves `start`/`end` unbound and the method
raises `UnboundLocalError`, modelled as `none`.  It is embedded at the
level of date fields (`PyDateTime` pairs) because `callback` renders the
values with `str(datetime)`. -/

/-- The calendar date after a given one (`+ timedelta(days=1)` at field
level). -/
def nextDate : Nat × Nat × Nat → Nat × Nat × Nat
  | (y, m, d) =>
    if d < daysInMonth y m then (y, m, d + 1)
    else if m < 12 then (y, m + 1, 1)
    else (y + 1, 1, 1)

/-- The calendar date before a given one (`- timedelta(days=1)` at field
level). -/
def prevDate : Nat × Nat × Nat → Nat × Nat × Nat
  | (y, m, d) =>
    if 1 < d then (y, m, d - 1)
    else if 1 < m then (y, m - 1, daysInMonth y (m - 1))
    else (y - 1, 12, 31)

def shiftDaysBack : Nat → Nat × Nat × Nat → Nat × Nat × Nat
  | 0, t => t
  | n + 1, t => shiftDaysBack n (prevDate t)

def shiftDaysFwd : Nat → Nat × Nat × Nat → Nat × Nat × Nat
  | 0, t => t
  | n + 1, t => shiftDaysFwd n (nextDate t)

/-- Embedding of `GetOutlookAgenda._get_date_range` from
`src/plugin/handlers/get.py` (lines 41–66). -/
def getpy_get_date_range (now : PyDateTime) (period : String) :
    Option (PyDateTime × PyDateTime) :=
  let p := period.toLower
  if p = "today" then
    -- start = now.replace(midnight); end = start + 1 day - 1 second
    some (⟨now.year, now.month, now.day, 0, 0, 0⟩,
      ⟨now.year, now.month, now.day, 23, 59, 59⟩)
  else if p = "tomorrow" then
    let t := nextDate (now.year, now.month, now.day)
    some (⟨t.1, t.2.1, t.2.2, 0, 0, 0⟩, ⟨t.1, t.2.1, t.2.2, 23, 59, 59⟩)
  else if p = "week" then
    -- start = (now - weekday days).replace(midnight); end = start + 6d 23:59:59
    let ws := shiftDaysBack (pyWeekday now) (now.year, now.month, now.day)
    let we := shiftDaysFwd 6 ws
    some (⟨ws.1, ws.2.1, ws.2.2, 0, 0, 0⟩, ⟨we.1, we.2.1, we.2.2, 23, 59, 59⟩)
  else if p = "month" then
    -- start = first of month; end = first of next month - 1 second
    let fe := if now.month = 12 then prevDate (now.year + 1, 1, 1)
      else prevDate (now.year, now.month + 1, 1)
    some (⟨now.year, now.month, 1, 0, 0, 0⟩, ⟨fe.1, fe.2.1, fe.2.2, 23, 59, 59⟩)
  else
    none

/-- `str(datetime)` for a value with zero microseconds:
`"YYYY-MM-DD HH:MM:SS"`. -/
def strOfPyDateTime (dt : PyDateTime) : String :=
  String.mk (dateChars dt.year dt.month dt.day ++
    (' ' :: (timeChars dt.hour dt.minute ++ (':' :: toDigits2 dt.second))))

/-- A flogin `Result`: the title/subtitle/icon triple the handler yields. -/
structure FLResult where
  title : String
  sub : String
  icon : String
deriving DecidableEq, Repr

/-- The usage-hint result yielded for an empty query. -/
def usageHint (keyword : String) : FLResult :=
  ⟨keyword ++
      " today, tomorrow, week, month, custom (from date, end date in YYYY-MM-DD [HH:MM] format)",
    "Default is today, unless after 5pm then tomorrow", "assets/app.png"⟩

/-- The result yielded when `win32com.client.Dispatch("Outlook.Application")`
raises `com_error` with the given `hresult`. -/
def comErrorResult (hresult : Int) : FLResult :=
  ⟨"Error - " ++ toString hresult,
    "This plugin won't work (most likely reason is Outlook not installed)",
    "assets/app.png"⟩

/-- Embedding of `GetOutlookAgenda.callback` from
`src/plugin/handlers/get.py` (lines 16–39): `dispatch` is the outcome of
instantiating the Outlook COM application (`Except.error hresult` models a
raised `com_error`), `keyword`/`text` are the query fields, and the
returned list collects the `Result` values the async generator yields. -/
def callback (keyword text : String) (dispatch : Except Int Unit)
    (now : PyDateTime) : List FLResult :=
  match dispatch with
  | Except.error hres => [comErrorResult hres]
  | Except.ok _ =>
    if text = "" then [usageHint keyword]
    else
      match getpy_get_date_range now "today" with
      | some (s, e) =>
        [⟨"Start date - " ++ strOfPyDateTime s ++ ", End date - " ++ strOfPyDateTime e,
          "Default is today, unless after 5pm then tomorrow", "assets/app.png"⟩]
      | none => []

/-- Claim C9: for a no-argument (empty-text) query the handler yields
exactly one result — the usage hint when the provider application
instantiates, and the error description carrying the `hresult` when
instantiation raises a COM error. -/
theorem callback_empty_query (keyword : String) (dispatch : Except Int Unit)
    (now : PyDateTime) :
    callback keyword "" dispatch now =
      match dispatch with
      | Except.ok _ => [usageHint keyword]
      | Except.error hres => [comErrorResult hres] := by
  cases dispatch <;> rfl
